import Mathlib

set_option genInjectivity false

set_option genSizeOfSpec false

/-!
Shallow embedding of the shader-variant cache and generator in
src/client/shader.cpp (class ShaderSource and its helpers).

Conventions of the embedding:
- the GPU driver, the path resolver, the file reader, the external shader
  compiler and the settings store are external collaborators; they are
  modelled as fields of a ShaderEnv record that is passed to every
  operation that consults them;
- thread identities are natural numbers; m_main_thread stores the id of
  the designated thread recorded by the constructor;
- machine integers (u32 ids, s32 handles, the E_MATERIAL_TYPE enum) are
  modelled as Nat and Int; the table is append-only and never close to
  2^32 entries, so no wraparound is modelled;
- errorstream output of the thread-identity checks is returned as an
  explicit list of message strings; infostream chatter is not modelled;
- C++ exceptions (ShaderException) become an Except value; operations
  that can throw return the mutated-so-far state alongside the result,
  matching the fact that a thrown exception leaves already-performed
  mutations of the ShaderSource object in place.
-/

/-- Modelled from the spec: the value type of ShaderConstants (declared in
shader.h, outside this file) is a tagged union of int and float; values
compare by tag plus payload. The float payload is modelled as a rational. -/
inductive ConstantValue where
  | ival : Int → ConstantValue
  | fval : Rat → ConstantValue
deriving DecidableEq

/-- Modelled from the spec: ShaderConstants (declared in shader.h, outside
this file) is a mapping from macro name to ConstantValue; insertion order is
preserved for emission, and equality is order-independent key/value equality. -/
abbrev ShaderConstants := List (String × ConstantValue)

/-- First binding of a key, as map lookup. -/
def constantsLookup (cs : ShaderConstants) (k : String) : Option ConstantValue :=
  (cs.find? (fun p => p.1 = k)).map (fun p => p.2)

/-- Map update, as the C++ operator[] assignment: overwrite the existing
binding in place, otherwise append a new one. -/
def constSet : ShaderConstants → String → ConstantValue → ShaderConstants
  | [], k, v => [(k, v)]
  | p :: rest, k, v => if p.1 = k then (k, v) :: rest else p :: constSet rest k v

/-- Value equality of two constant sets: same keys, same tagged values,
independent of order.  This is the equality the cache scan uses
(std::map operator== on the C++ side). -/
def constantsEq (a b : ShaderConstants) : Prop :=
  (∀ p ∈ a, constantsLookup b p.1 = constantsLookup a p.1) ∧
  (∀ p ∈ b, constantsLookup a p.1 = constantsLookup b p.1)

instance (a b : ShaderConstants) : Decidable (constantsEq a b) := by
  unfold constantsEq
  exact inferInstance

/-- A generation-time constant setter: IShaderConstantSetter.onGenerate
mutates the constant set, here as a function of the shader name. -/
abbrev Setter := String → ShaderConstants → ShaderConstants

/-- Modelled from the spec: E_MATERIAL_TYPE (an irrlicht header, outside this
file) is an opaque enumerated blend-mode tag; only distinctness of the values
below matters to this code. EMT_SOLID is the default. -/
def EMT_SOLID : Int := 0

def EMT_TRANSPARENT_ALPHA_CHANNEL : Int := 13

def EMT_TRANSPARENT_ALPHA_CHANNEL_REF : Int := 14

def EMT_TRANSPARENT_VERTEX_ALPHA : Int := 15

def EMT_ONETEXTURE_BLEND : Int := 17

/-- Driver types distinguished by shader.cpp. -/
inductive DriverType where
  | null
  | opengl
  | ogles2
  | opengl3
deriving DecidableEq

/-- The settings read by MainShaderConstantSetter::onGenerate. -/
structure GameSettings where
  tone_mapping : Bool
  enable_dynamic_shadows : Bool
  shadow_map_color : Bool
  shadow_poisson_filter : Bool
  enable_water_reflections : Bool
  enable_translucent_foliage : Bool
  shadow_filters : Int
  shadow_soft_radius : Rat
  enable_bloom : Bool
  enable_bloom_debug : Bool
  enable_auto_exposure : Bool
  antialiasing : String
  fsaa : Nat
  debanding : Bool
  enable_volumetric_lighting : Bool

/-- External collaborators of ShaderSource: driver capabilities, the
external compiler entry point, path resolution, file reading, settings. -/
structure ShaderEnv where
  driverType : DriverType
  /-- driver->queryFeature(video::EVDF_ARB_GLSL) -/
  queryGLSL : Bool
  /-- driver->getGPUProgrammingServices() is non-null -/
  hasGPU : Bool
  /-- strstr(GL.GetString(GL.RENDERER), "GC7000") is non-null -/
  rendererGC7000 : Bool
  /-- gpu->addHighLevelShaderMaterial: vertex src, fragment src, optional
  geometry src, debug name, base material; returns the handle, -1 on
  failure. -/
  addHighLevelShaderMaterial : String → String → Option String → String → Int → Int
  /-- getShaderPath, empty when not found -/
  pathResolve : String → String → String
  /-- fs::ReadFile, empty on failure -/
  readFile : String → String
  settings : GameSettings

/-- The exceptions thrown by generateShader. -/
inductive ShaderError where
  | unsupported : String → ShaderError
  | compileFailed : String → ShaderError

/-- A record of the shader table (struct ShaderInfo of shader.h; defaults
per the spec and the comment at getShaderIdDirect: the null shader's
material is EMT_SOLID). -/
structure ShaderInfo where
  name : String := ""
  input_constants : ShaderConstants := []
  base_material : Int := EMT_SOLID
  material : Int := EMT_SOLID

/-- The default-constructed sentinel record. -/
def emptyShaderInfo : ShaderInfo := {}

/-- SourceShaderCache::m_programs: combined name to program text. -/
abbrev SourceCache := List (String × String)

/-- name_of_shader + DIR_DELIM + filename -/
def combinedName (n f : String) : String := n ++ "/" ++ f

/-- Map assignment for the source cache. -/
def strSet : SourceCache → String → String → SourceCache
  | [], k, v => [(k, v)]
  | p :: rest, k, v => if p.1 = k then (k, v) :: rest else p :: strSet rest k v

/-- SourceShaderCache::getOrLoad: cached text if present, else resolve a
path and read the file, caching a non-empty result. -/
def sscGetOrLoad (env : ShaderEnv) (c : SourceCache) (n f : String) :
    String × SourceCache :=
  match c.find? (fun p => p.1 = combinedName n f) with
  | some e => (e.2, c)
  | none =>
    let path := env.pathResolve n f
    if path = "" then ("", c)
    else
      let p := env.readFile path
      if p = "" then ("", c) else (p, strSet c (combinedName n f) p)

/-- SourceShaderCache::insert with prefer_local: prefer freshly read
override file content, else store the supplied program text. -/
def sscInsert (env : ShaderEnv) (c : SourceCache) (n f program : String) :
    SourceCache :=
  let path := env.pathResolve n f
  if path ≠ "" then
    let p := env.readFile path
    if p ≠ "" then strSet c (combinedName n f) p
    else strSet c (combinedName n f) program
  else strSet c (combinedName n f) program

/-- putConstant: render a tagged constant value as text. Integer rendering
matches the C++ stream output; float rendering is abstracted to the
rational's textual form (exact float formatting is a platform concern no
property here depends on). -/
def putConstant : ConstantValue → String
  | ConstantValue.ival i => toString i
  | ConstantValue.fval f => toString f

/-- One " key=value" fragment of the debug identifier. -/
def pairStr (p : String × ConstantValue) : String :=
  " " ++ p.1 ++ "=" ++ putConstant p.2

/-- The debug identifier built in generateShader: start from the shader
name; before appending each constant pair, if the accumulated string is
already longer than 60 characters, append an ellipsis and stop. -/
def logName (name : String) : ShaderConstants → String
  | [] => name
  | p :: rest =>
    if name.length > 60 then name ++ "..."
    else logName (name ++ pairStr p) rest

/-- Concatenation of the " key=value" fragments of a constant list. -/
def concatPairs : List (String × ConstantValue) → String
  | [] => ""
  | p :: rest => pairStr p ++ concatPairs rest

/-- The "#define NAME VALUE" block emitted into the common header, one
line per constant in iteration order. -/
def definesBlock : ShaderConstants → String
  | [] => ""
  | p :: rest => "#define " ++ p.1 ++ " " ++ putConstant p.2 ++ "\n" ++ definesBlock rest

/-- MainShaderConstantSetter::onGenerate, reading the settings store.
The statically disabled ENABLE_NODE_SPECULAR branch (if (false) in the
source) contributes nothing and is omitted. -/
def mainShaderConstantSetter (st : GameSettings) : Setter := fun _name constants =>
  let c := constSet constants "ENABLE_TONE_MAPPING"
    (ConstantValue.ival (if st.tone_mapping then 1 else 0))
  let c := if st.enable_dynamic_shadows then
      let c := constSet c "ENABLE_DYNAMIC_SHADOWS" (ConstantValue.ival 1)
      let c := if st.shadow_map_color then
          constSet c "COLORED_SHADOWS" (ConstantValue.ival 1) else c
      let c := if st.shadow_poisson_filter then
          constSet c "POISSON_FILTER" (ConstantValue.ival 1) else c
      let c := if st.enable_water_reflections then
          constSet c "ENABLE_WATER_REFLECTIONS" (ConstantValue.ival 1) else c
      let c := if st.enable_translucent_foliage then
          constSet c "ENABLE_TRANSLUCENT_FOLIAGE" (ConstantValue.ival 1) else c
      let c := constSet c "SHADOW_FILTER" (ConstantValue.ival st.shadow_filters)
      constSet c "SOFTSHADOWRADIUS" (ConstantValue.fval (max 1 st.shadow_soft_radius))
    else c
  let c := if st.enable_bloom then
      let c := constSet c "ENABLE_BLOOM" (ConstantValue.ival 1)
      if st.enable_bloom_debug then
        constSet c "ENABLE_BLOOM_DEBUG" (ConstantValue.ival 1) else c
    else c
  let c := if st.enable_auto_exposure then
      constSet c "ENABLE_AUTO_EXPOSURE" (ConstantValue.ival 1) else c
  let c := if st.antialiasing = "ssaa" then
      let c := constSet c "ENABLE_SSAA" (ConstantValue.ival 1)
      constSet c "SSAA_SCALE" (ConstantValue.ival (Int.ofNat (max 2 st.fsaa)))
    else c
  let c := if st.debanding then
      constSet c "ENABLE_DITHERING" (ConstantValue.ival 1) else c
  if st.enable_volumetric_lighting then
    constSet c "VOLUMETRIC_LIGHT" (ConstantValue.ival 1) else c

/-- The constant set actually emitted as macros by generateShader: caller
constants, then the discard-mode flag derived from driver capability and
base material, then every registered setter in registration order. -/
def mergedConstants (env : ShaderEnv) (setters : List Setter) (name : String)
    (input_const : ShaderConstants) (base_mat : Int) : ShaderConstants :=
  let fully_programmable :=
    env.driverType = DriverType.ogles2 ∨ env.driverType = DriverType.opengl3
  let use_discard := fully_programmable ∨ env.rendererGC7000 = true
  let c1 :=
    if use_discard then
      if base_mat = EMT_TRANSPARENT_ALPHA_CHANNEL then
        constSet input_const "USE_DISCARD" (ConstantValue.ival 1)
      else if base_mat = EMT_TRANSPARENT_ALPHA_CHANNEL_REF then
        constSet input_const "USE_DISCARD_REF" (ConstantValue.ival 1)
      else input_const
    else input_const
  List.foldl (fun acc f => f name acc) c1 setters

/-- Legacy fixed-pipeline version header (the raw string at the
non-fully-programmable branch). -/
def legacyVersionHeader : String :=
  "\n\t\t\t#version 120\n\t\t\t#define lowp\n\t\t\t#define mediump\n\t\t\t#define highp\n\t\t"

/-- Vertex-stage header of the fully programmable tier. -/
def vertexHeaderProgrammable : String :=
  "\n\t\t\tprecision mediump float;\n\n\t\t\tuniform highp mat4 mWorldView;\n\t\t\tuniform highp mat4 mWorldViewProj;\n\t\t\tuniform mediump mat4 mTexture;\n\n\t\t\tattribute highp vec4 inVertexPosition;\n\t\t\tattribute lowp vec4 inVertexColor;\n\t\t\tattribute mediump vec2 inTexCoord0;\n\t\t\tattribute mediump vec3 inVertexNormal;\n\t\t\tattribute mediump vec4 inVertexTangent;\n\t\t\tattribute mediump vec4 inVertexBinormal;\n\t\t"

/-- Vertex-stage header of the legacy tier. -/
def vertexHeaderLegacy : String :=
  "\n\t\t\t#define mWorldView gl_ModelViewMatrix\n\t\t\t#define mWorldViewProj gl_ModelViewProjectionMatrix\n\t\t\t#define mTexture (gl_TextureMatrix[0])\n\n\t\t\t#define inVertexPosition gl_Vertex\n\t\t\t#define inVertexColor gl_Color\n\t\t\t#define inTexCoord0 gl_MultiTexCoord0\n\t\t\t#define inVertexNormal gl_Normal\n\t\t\t#define inVertexTangent gl_MultiTexCoord1\n\t\t\t#define inVertexBinormal gl_MultiTexCoord2\n\t\t"

/-- Fragment-stage header of the fully programmable tier. -/
def fragmentHeaderProgrammable : String :=
  "\n\t\t\tprecision mediump float;\n\t\t"

/-- Legacy semantic texture name mapping appended to every fragment header. -/
def fragmentHeaderSemantics : String :=
  "\n\t\t#define baseTexture texture0\n\t\t#define normalTexture texture1\n\t\t#define textureFlags texture2\n\t"

/-- The tail of generateShader after the external compiler was invoked:
a -1 handle becomes the compilation-failure exception, any other handle
becomes the record's compiled material. -/
def compileOutcome (info0 : ShaderInfo) (log_name : String) (shadermat : Int)
    (src : SourceCache) : Except ShaderError ShaderInfo × SourceCache :=
  if shadermat = -1 then
    (Except.error (ShaderError.compileFailed
      ("Failed to compile the \"" ++ log_name ++ "\" shader.\nCheck debug.txt for details.")),
     src)
  else
    (Except.ok { info0 with material := shadermat }, src)

/-- The compiled path of ShaderSource::generateShader, taken once the
driver was found to support shaders: header assembly, constant merging
and emission, source fetching, and the external compiler invocation. -/
def generateShaderCompiled (env : ShaderEnv) (setters : List Setter)
    (src : SourceCache) (name : String) (input_const : ShaderConstants)
    (base_mat : Int) : Except ShaderError ShaderInfo × SourceCache :=
  let info0 : ShaderInfo :=
    { name := name, input_constants := input_const,
      base_material := base_mat, material := base_mat }
  let fully_programmable :=
    env.driverType = DriverType.ogles2 ∨ env.driverType = DriverType.opengl3
  let version_header : String :=
    if fully_programmable then
      if env.driverType = DriverType.opengl3 then "#version 150\n"
      else "#version 100\n"
    else legacyVersionHeader
  let vertex_header : String :=
    if fully_programmable then
      vertexHeaderProgrammable ++ "#define inVertexColor (inVertexColor.bgra)\n"
    else vertexHeaderLegacy
  let fragment_header : String :=
    (if fully_programmable then fragmentHeaderProgrammable else "")
      ++ fragmentHeaderSemantics
  let geometry_header : String := ""
  let log_name := logName name input_const
  let constants := mergedConstants env setters name input_const base_mat
  let common_header := version_header ++ definesBlock constants
  let final_header := "#line 0\n"
  let v := sscGetOrLoad env src name "opengl_vertex.glsl"
  let f := sscGetOrLoad env v.2 name "opengl_fragment.glsl"
  let g := sscGetOrLoad env f.2 name "opengl_geometry.glsl"
  let vertex_shader := common_header ++ vertex_header ++ final_header ++ v.1
  let fragment_shader := common_header ++ fragment_header ++ final_header ++ f.1
  let geometry_shader : Option String :=
    if g.1 = "" then none
    else some (common_header ++ geometry_header ++ final_header ++ g.1)
  let shadermat := env.addHighLevelShaderMaterial
    vertex_shader fragment_shader geometry_shader log_name base_mat
  compileOutcome info0 log_name shadermat g.2

/-- ShaderSource::generateShader.  Returns the generated record or the
thrown ShaderException, together with the source cache as mutated by the
getOrLoad calls performed before the failure point. -/
def generateShader (env : ShaderEnv) (setters : List Setter) (src : SourceCache)
    (name : String) (input_const : ShaderConstants) (base_mat : Int) :
    Except ShaderError ShaderInfo × SourceCache :=
  let info0 : ShaderInfo :=
    { name := name, input_constants := input_const,
      base_material := base_mat, material := base_mat }
  if env.driverType = DriverType.null then
    (Except.ok info0, src)
  else if env.queryGLSL = false ∨ env.hasGPU = false then
    (Except.error (ShaderError.unsupported "GLSL is not supported by the driver"), src)
  else
    generateShaderCompiled env setters src name input_const base_mat

/-- The ShaderSource state: designated thread id, the id-indexed record
table, the source cache, the registered generation-time constant setters.
(The uniform setter factories only matter at draw time and carry no state
observed by any operation modelled here.) -/
structure ShaderSource where
  m_main_thread : Nat
  m_shaderinfo_cache : List ShaderInfo
  m_sourcecache : SourceCache
  m_constant_setters : List Setter

/-- ShaderSource::ShaderSource: record the constructing thread, seed the
table with the dummy record, register MainShaderConstantSetter. -/
def ShaderSource.new (env : ShaderEnv) (tid : Nat) : ShaderSource :=
  { m_main_thread := tid,
    m_shaderinfo_cache := [emptyShaderInfo],
    m_sourcecache := [],
    m_constant_setters := [mainShaderConstantSetter env.settings] }

/-- ShaderSource::addShaderConstantSetter. -/
def addShaderConstantSetter (s : ShaderSource) (st : Setter) : ShaderSource :=
  { s with m_constant_setters := s.m_constant_setters ++ [st] }

/-- The per-record predicate of the cache scan in getShaderIdDirect:
same name, same base material, value-equal constant set. -/
def shaderMatches (info : ShaderInfo) (name : String) (cs : ShaderConstants)
    (mat : Int) : Prop :=
  info.name = name ∧ info.base_material = mat ∧ constantsEq info.input_constants cs

instance (info : ShaderInfo) (name : String) (cs : ShaderConstants) (mat : Int) :
    Decidable (shaderMatches info name cs mat) := by
  unfold shaderMatches
  exact inferInstance

/-- The linear scan of getShaderIdDirect: index of the first matching
record. -/
def scanFind (cache : List ShaderInfo) (name : String) (cs : ShaderConstants)
    (mat : Int) : Option Nat :=
  match cache with
  | [] => none
  | info :: rest =>
    if shaderMatches info name cs mat then some 0
    else (scanFind rest name cs mat).map (fun i => i + 1)

/-- ShaderSource::getShaderIdDirect: empty name short-circuits to id 0;
then the cache scan; then the thread-identity check; then generation and
append.  The third component lists the errorstream messages emitted. -/
def getShaderIdDirect (env : ShaderEnv) (tid : Nat) (s : ShaderSource)
    (name : String) (input_const : ShaderConstants) (base_mat : Int) :
    Except ShaderError Nat × ShaderSource × List String :=
  if name = "" then (Except.ok 0, s, [])
  else
    match scanFind s.m_shaderinfo_cache name input_const base_mat with
    | some i => (Except.ok i, s, [])
    | none =>
      if tid ≠ s.m_main_thread then
        (Except.ok 0, s,
         ["ShaderSource::getShaderIdDirect() called not from main thread"])
      else
        let g := generateShader env s.m_constant_setters s.m_sourcecache
          name input_const base_mat
        match g.1 with
        | Except.error e => (Except.error e, { s with m_sourcecache := g.2 }, [])
        | Except.ok info =>
          (Except.ok s.m_shaderinfo_cache.length,
           { s with m_shaderinfo_cache := s.m_shaderinfo_cache ++ [info],
                    m_sourcecache := g.2 }, [])

/-- ShaderSource::getShader: delegate on the designated thread, otherwise
log and return the sentinel id (the queued cross-thread path is compiled
out in the source). -/
def getShader (env : ShaderEnv) (tid : Nat) (s : ShaderSource)
    (name : String) (input_const : ShaderConstants) (base_mat : Int) :
    Except ShaderError Nat × ShaderSource × List String :=
  if tid = s.m_main_thread then
    getShaderIdDirect env tid s name input_const base_mat
  else
    (Except.ok 0, s,
     ["ShaderSource::getShader(): getting from other thread not implemented"])

/-- ShaderSource::getShaderInfo: the record at the id, or the static
default record when the id is out of range. -/
def getShaderInfo (s : ShaderSource) (id : Nat) : ShaderInfo :=
  s.m_shaderinfo_cache.getD id emptyShaderInfo

/-- ShaderSource::insertSourceShader (designated-thread-only by
sanity_check; the state transition itself does not depend on the thread). -/
def insertSourceShader (env : ShaderEnv) (s : ShaderSource)
    (n f program : String) : ShaderSource :=
  { s with m_sourcecache := sscInsert env s.m_sourcecache n f program }

/-- The regeneration pass of rebuildShaders over the (already invalidated)
table: non-sentinel records are regenerated in order from their stored
name, constants and base material; a thrown exception stops the pass,
leaving the remaining records as they were. -/
def rebuildLoop (env : ShaderEnv) (setters : List Setter) :
    SourceCache → List ShaderInfo →
    Except ShaderError Unit × List ShaderInfo × SourceCache
  | src, [] => (Except.ok (), [], src)
  | src, i :: rest =>
    if i.name = "" then
      let r := rebuildLoop env setters src rest
      (r.1, i :: r.2.1, r.2.2)
    else
      let g := generateShader env setters src i.name i.input_constants i.base_material
      match g.1 with
      | Except.error e => (Except.error e, i :: rest, g.2)
      | Except.ok info =>
        let r := rebuildLoop env setters g.2 rest
        (r.1, info :: r.2.1, r.2.2)

/-- ShaderSource::rebuildShaders: first invalidate every non-sentinel
record's handle to EMT_SOLID (the driver-side material was deleted), then
regenerate each record in place. -/
def rebuildShaders (env : ShaderEnv) (s : ShaderSource) :
    Except ShaderError Unit × ShaderSource :=
  let invalidated := s.m_shaderinfo_cache.map
    (fun i => if i.name = "" then i else { i with material := EMT_SOLID })
  let r := rebuildLoop env s.m_constant_setters s.m_sourcecache invalidated
  (r.1, { s with m_shaderinfo_cache := r.2.1, m_sourcecache := r.2.2 })

/-- Registry states reachable from a freshly constructed ShaderSource by
the public operations (requests from any thread, override-source
insertion, setter registration, full rebuild), under a fixed environment. -/
inductive Reachable (env : ShaderEnv) : ShaderSource → Prop where
  | init (tid : Nat) : Reachable env (ShaderSource.new env tid)
  | request {s : ShaderSource} (tid : Nat) (name : String)
      (cs : ShaderConstants) (mat : Int) :
      Reachable env s →
      Reachable env (getShaderIdDirect env tid s name cs mat).2.1
  | insertSrc {s : ShaderSource} (n f program : String) :
      Reachable env s → Reachable env (insertSourceShader env s n f program)
  | addSetter {s : ShaderSource} (st : Setter) :
      Reachable env s → Reachable env (addShaderConstantSetter s st)
  | rebuild {s : ShaderSource} :
      Reachable env s → Reachable env (rebuildShaders env s).2

/-- A concrete settings store with every optional feature off. -/
def settings0 : GameSettings :=
  { tone_mapping := false, enable_dynamic_shadows := false,
    shadow_map_color := false, shadow_poisson_filter := false,
    enable_water_reflections := false, enable_translucent_foliage := false,
    shadow_filters := 0, shadow_soft_radius := 1,
    enable_bloom := false, enable_bloom_debug := false,
    enable_auto_exposure := false, antialiasing := "fxaa", fsaa := 0,
    debanding := false, enable_volumetric_lighting := false }

/-- A concrete environment with the null driver (no shader support, so
generation trivially succeeds as a pass-through). -/
def env0 : ShaderEnv :=
  { driverType := DriverType.null, queryGLSL := false, hasGPU := false,
    rendererGC7000 := false,
    addHighLevelShaderMaterial := fun _ _ _ _ _ => -1,
    pathResolve := fun _ _ => "", readFile := fun _ => "",
    settings := settings0 }

/-- A concrete environment whose driver exists but lacks GLSL support. -/
def envNoGLSL : ShaderEnv :=
  { env0 with driverType := DriverType.opengl, queryGLSL := false, hasGPU := true }

/-- A registry freshly constructed on thread 0 in env0. -/
def s0 : ShaderSource := ShaderSource.new env0 0

/-! Basic facts about constant-set lookup and value equality. -/

theorem constantsLookup_mem {cs : ShaderConstants} {k : String} {v : ConstantValue}
    (h : constantsLookup cs k = some v) : ∃ p ∈ cs, p.1 = k ∧ p.2 = v := by
  unfold constantsLookup at h
  cases hf : cs.find? (fun p => p.1 = k) with
  | none => rw [hf] at h; simp at h
  | some p =>
    rw [hf] at h
    simp at h
    refine ⟨p, List.mem_of_find?_eq_some hf, ?_, h⟩
    have := List.find?_some hf
    simpa using this

theorem constantsEq_iff {a b : ShaderConstants} :
    constantsEq a b ↔ ∀ k, constantsLookup a k = constantsLookup b k := by
  constructor
  · rintro ⟨h1, h2⟩ k
    cases ha : constantsLookup a k with
    | some v =>
      obtain ⟨p, hp, hk, -⟩ := constantsLookup_mem ha
      have := h1 p hp
      rw [hk] at this
      rw [this, ha]
    | none =>
      cases hb : constantsLookup b k with
      | none => rfl
      | some w =>
        obtain ⟨q, hq, hk, -⟩ := constantsLookup_mem hb
        have := h2 q hq
        rw [hk] at this
        rw [ha, hb] at this
        exact this
  · intro h
    exact ⟨fun p _ => (h p.1).symm, fun p _ => h p.1⟩

theorem constantsEq_refl (a : ShaderConstants) : constantsEq a a :=
  constantsEq_iff.mpr (fun _ => rfl)

theorem constantsEq_symm {a b : ShaderConstants} (h : constantsEq a b) :
    constantsEq b a :=
  constantsEq_iff.mpr (fun k => (constantsEq_iff.mp h k).symm)

theorem constantsEq_trans {a b c : ShaderConstants}
    (h1 : constantsEq a b) (h2 : constantsEq b c) : constantsEq a c :=
  constantsEq_iff.mpr
    (fun k => (constantsEq_iff.mp h1 k).trans (constantsEq_iff.mp h2 k))

theorem constantsLookup_constSet_self (cs : ShaderConstants) (k : String)
    (v : ConstantValue) : constantsLookup (constSet cs k v) k = some v := by
  induction cs with
  | nil => simp [constSet, constantsLookup]
  | cons p rest ih =>
    by_cases hp : p.1 = k
    · simp [constSet, hp, constantsLookup]
    · simp only [constSet, if_neg hp]
      unfold constantsLookup at ih ⊢
      simp only [List.find?_cons, hp]
      simpa [hp] using ih

/-! Facts about the cache scan. -/

theorem shaderMatches_congr {info : ShaderInfo} {name : String}
    {cs1 cs2 : ShaderConstants} {mat : Int} (h : constantsEq cs1 cs2) :
    shaderMatches info name cs1 mat ↔ shaderMatches info name cs2 mat := by
  unfold shaderMatches
  constructor
  · rintro ⟨h1, h2, h3⟩; exact ⟨h1, h2, constantsEq_trans h3 h⟩
  · rintro ⟨h1, h2, h3⟩; exact ⟨h1, h2, constantsEq_trans h3 (constantsEq_symm h)⟩

theorem scanFind_congr {cache : List ShaderInfo} {name : String}
    {cs1 cs2 : ShaderConstants} {mat : Int} (h : constantsEq cs1 cs2) :
    scanFind cache name cs1 mat = scanFind cache name cs2 mat := by
  induction cache with
  | nil => rfl
  | cons info rest ih =>
    unfold scanFind
    by_cases hm : shaderMatches info name cs1 mat
    · rw [if_pos hm, if_pos ((shaderMatches_congr h).mp hm)]
    · rw [if_neg hm, if_neg (fun hc => hm ((shaderMatches_congr h).mpr hc)), ih]

theorem scanFind_some {cache : List ShaderInfo} {name : String}
    {cs : ShaderConstants} {mat : Int} {i : Nat}
    (h : scanFind cache name cs mat = some i) :
    ∃ info, cache.get? i = some info ∧ shaderMatches info name cs mat := by
  induction cache generalizing i with
  | nil => simp [scanFind] at h
  | cons hd rest ih =>
    unfold scanFind at h
    by_cases hm : shaderMatches hd name cs mat
    · rw [if_pos hm] at h
      cases h
      exact ⟨hd, rfl, hm⟩
    · rw [if_neg hm] at h
      cases hr : scanFind rest name cs mat with
      | none => rw [hr] at h; simp at h
      | some j =>
        rw [hr] at h
        simp at h
        obtain ⟨info, hg, hmj⟩ := ih hr
        exact ⟨info, by rw [← h]; simpa using hg, hmj⟩

theorem scanFind_some_lt {cache : List ShaderInfo} {name : String}
    {cs : ShaderConstants} {mat : Int} {i : Nat}
    (h : scanFind cache name cs mat = some i) : i < cache.length := by
  obtain ⟨info, hg, -⟩ := scanFind_some h
  exact List.get?_eq_some.mp hg |>.1

theorem scanFind_append_of_none {cache : List ShaderInfo} {name : String}
    {cs : ShaderConstants} {mat : Int} (info : ShaderInfo)
    (h : scanFind cache name cs mat = none) :
    scanFind (cache ++ [info]) name cs mat =
      if shaderMatches info name cs mat then some cache.length else none := by
  induction cache with
  | nil => simp [scanFind]
  | cons hd rest ih =>
    rw [List.cons_append]
    unfold scanFind at h ⊢
    by_cases hm : shaderMatches hd name cs mat
    · rw [if_pos hm] at h; cases h
    · rw [if_neg hm] at h ⊢
      cases hr : scanFind rest name cs mat with
      | none =>
        rw [hr] at h
        rw [ih hr]
        by_cases hi : shaderMatches info name cs mat
        · simp [hi]
        · simp [hi]
      | some j => rw [hr] at h; simp at h

/-! Facts about generation and the direct request path. -/

theorem compileOutcome_ok {info0 : ShaderInfo} {log_name : String}
    {shadermat : Int} {src : SourceCache} {info : ShaderInfo}
    (h : (compileOutcome info0 log_name shadermat src).1 = Except.ok info) :
    info = { info0 with material := shadermat } := by
  unfold compileOutcome at h
  split at h
  · cases h
  · cases h
    rfl

theorem generateShaderCompiled_ok_fields {env : ShaderEnv}
    {setters : List Setter} {src : SourceCache} {name : String}
    {cs : ShaderConstants} {mat : Int} {info : ShaderInfo}
    (h : (generateShaderCompiled env setters src name cs mat).1 = Except.ok info) :
    info.name = name ∧ info.input_constants = cs ∧ info.base_material = mat := by
  have hco := compileOutcome_ok h
  subst hco
  exact ⟨rfl, rfl, rfl⟩

theorem generateShader_ok_fields {env : ShaderEnv} {setters : List Setter}
    {src : SourceCache} {name : String} {cs : ShaderConstants} {mat : Int}
    {info : ShaderInfo}
    (h : (generateShader env setters src name cs mat).1 = Except.ok info) :
    info.name = name ∧ info.input_constants = cs ∧ info.base_material = mat := by
  unfold generateShader at h
  by_cases h1 : env.driverType = DriverType.null
  · rw [if_pos h1] at h
    cases h
    exact ⟨rfl, rfl, rfl⟩
  · rw [if_neg h1] at h
    by_cases h2 : env.queryGLSL = false ∨ env.hasGPU = false
    · rw [if_pos h2] at h
      cases h
    · rw [if_neg h2] at h
      exact generateShaderCompiled_ok_fields h

theorem getShaderIdDirect_empty (env : ShaderEnv) (tid : Nat) (s : ShaderSource)
    (cs : ShaderConstants) (mat : Int) :
    getShaderIdDirect env tid s "" cs mat = (Except.ok 0, s, []) := by
  unfold getShaderIdDirect
  rw [if_pos rfl]

theorem getShaderIdDirect_hit {env : ShaderEnv} {tid : Nat} {s : ShaderSource}
    {name : String} {cs : ShaderConstants} {mat : Int} {i : Nat}
    (hname : name ≠ "")
    (hscan : scanFind s.m_shaderinfo_cache name cs mat = some i) :
    getShaderIdDirect env tid s name cs mat = (Except.ok i, s, []) := by
  unfold getShaderIdDirect
  rw [if_neg hname, hscan]

theorem getShaderIdDirect_miss_other {env : ShaderEnv} {tid : Nat}
    {s : ShaderSource} {name : String} {cs : ShaderConstants} {mat : Int}
    (hname : name ≠ "")
    (hscan : scanFind s.m_shaderinfo_cache name cs mat = none)
    (hthread : tid ≠ s.m_main_thread) :
    getShaderIdDirect env tid s name cs mat =
      (Except.ok 0, s,
       ["ShaderSource::getShaderIdDirect() called not from main thread"]) := by
  unfold getShaderIdDirect
  rw [if_neg hname, hscan]
  simp only [if_pos hthread]

theorem getShaderIdDirect_gen_ok {env : ShaderEnv} {tid : Nat}
    {s : ShaderSource} {name : String} {cs : ShaderConstants} {mat : Int}
    {info : ShaderInfo}
    (hname : name ≠ "")
    (hscan : scanFind s.m_shaderinfo_cache name cs mat = none)
    (hthread : tid = s.m_main_thread)
    (hgen : (generateShader env s.m_constant_setters s.m_sourcecache name cs mat).1
      = Except.ok info) :
    getShaderIdDirect env tid s name cs mat =
      (Except.ok s.m_shaderinfo_cache.length,
       { s with m_shaderinfo_cache := s.m_shaderinfo_cache ++ [info],
                m_sourcecache :=
                  (generateShader env s.m_constant_setters s.m_sourcecache name cs mat).2 },
       []) := by
  subst hthread
  unfold getShaderIdDirect
  rw [if_neg hname, hscan]
  simp only [ne_eq, not_true_eq_false, if_false, hgen]

theorem getShaderIdDirect_gen_err {env : ShaderEnv} {tid : Nat}
    {s : ShaderSource} {name : String} {cs : ShaderConstants} {mat : Int}
    {e : ShaderError}
    (hname : name ≠ "")
    (hscan : scanFind s.m_shaderinfo_cache name cs mat = none)
    (hthread : tid = s.m_main_thread)
    (hgen : (generateShader env s.m_constant_setters s.m_sourcecache name cs mat).1
      = Except.error e) :
    getShaderIdDirect env tid s name cs mat =
      (Except.error e,
       { s with m_sourcecache :=
           (generateShader env s.m_constant_setters s.m_sourcecache name cs mat).2 },
       []) := by
  subst hthread
  unfold getShaderIdDirect
  rw [if_neg hname, hscan]
  simp only [ne_eq, not_true_eq_false, if_false, hgen]

/-- Inversion of a successful direct request from the designated thread:
either the scan hit the returned id and the state is unchanged, or the
scan missed, generation succeeded, the id is the old table length and the
table grew by exactly the generated record. -/
theorem getShaderIdDirect_ok_inv {env : ShaderEnv} {tid : Nat}
    {s : ShaderSource} {name : String} {cs : ShaderConstants} {mat : Int}
    {id : Nat}
    (hname : name ≠ "")
    (hthread : tid = s.m_main_thread)
    (h : (getShaderIdDirect env tid s name cs mat).1 = Except.ok id) :
    (scanFind s.m_shaderinfo_cache name cs mat = some id ∧
      (getShaderIdDirect env tid s name cs mat).2.1 = s) ∨
    (scanFind s.m_shaderinfo_cache name cs mat = none ∧
      id = s.m_shaderinfo_cache.length ∧
      ∃ info,
        (generateShader env s.m_constant_setters s.m_sourcecache name cs mat).1
          = Except.ok info ∧
        (getShaderIdDirect env tid s name cs mat).2.1.m_shaderinfo_cache
          = s.m_shaderinfo_cache ++ [info]) := by
  cases hscan : scanFind s.m_shaderinfo_cache name cs mat with
  | some i =>
    have heq := @getShaderIdDirect_hit env tid s name cs mat i hname hscan
    rw [heq] at h
    have hid : i = id := by simpa using h
    subst hid
    left
    exact ⟨rfl, by rw [heq]⟩
  | none =>
    right
    cases hgen : (generateShader env s.m_constant_setters s.m_sourcecache name cs mat).1 with
    | error e =>
      have heq := getShaderIdDirect_gen_err hname hscan hthread hgen
      rw [heq] at h
      simp at h
    | ok info =>
      have heq := getShaderIdDirect_gen_ok hname hscan hthread hgen
      rw [heq] at h
      have hid : s.m_shaderinfo_cache.length = id := by simpa using h
      refine ⟨rfl, hid.symm, info, rfl, ?_⟩
      rw [heq]

theorem getShaderIdDirect_preserves_main (env : ShaderEnv) (tid : Nat)
    (s : ShaderSource) (name : String) (cs : ShaderConstants) (mat : Int) :
    ((getShaderIdDirect env tid s name cs mat).2.1).m_main_thread
      = s.m_main_thread := by
  by_cases hname : name = ""
  · subst hname
    rw [getShaderIdDirect_empty]
  · cases hscan : scanFind s.m_shaderinfo_cache name cs mat with
    | some i => rw [getShaderIdDirect_hit hname hscan]
    | none =>
      by_cases hthread : tid = s.m_main_thread
      · cases hgen : (generateShader env s.m_constant_setters s.m_sourcecache
            name cs mat).1 with
        | error e => rw [getShaderIdDirect_gen_err hname hscan hthread hgen]
        | ok info => rw [getShaderIdDirect_gen_ok hname hscan hthread hgen]
      · rw [getShaderIdDirect_miss_other hname hscan hthread]

/-- C3: requestId invoked from a thread other than the designated one via
the public getShader entry point returns id 0, emits the error message,
and returns the state unchanged (in particular the record table length is
unchanged); no blocking or queueing path exists, the call returns at once. -/
theorem getShader_other_thread_rejected
    (env : ShaderEnv) (tid : Nat) (s : ShaderSource) (name : String)
    (cs : ShaderConstants) (mat : Int)
    (h : tid ≠ s.m_main_thread) :
    getShader env tid s name cs mat =
      (Except.ok 0, s,
       ["ShaderSource::getShader(): getting from other thread not implemented"]) := by
  unfold getShader
  rw [if_neg h]

theorem getShader_other_thread_rejected_witness :
    getShader env0 1 s0 "test" [] 0 =
      (Except.ok 0, s0,
       ["ShaderSource::getShader(): getting from other thread not implemented"]) :=
  getShader_other_thread_rejected env0 1 s0 "test" [] 0 (by decide)

/-- C5: lookup of an id at or beyond the table length returns the
sentinel record (empty name, default material), for every registry state;
the operation is total, it never fails or throws. -/
theorem getShaderInfo_out_of_range
    (s : ShaderSource) (id : Nat)
    (h : s.m_shaderinfo_cache.length ≤ id) :
    getShaderInfo s id = emptyShaderInfo := by
  unfold getShaderInfo
  rw [List.getD_eq_getElem?_getD, List.getElem?_eq_none h]
  rfl

theorem getShaderInfo_out_of_range_witness :
    getShaderInfo s0 5 = emptyShaderInfo :=
  getShaderInfo_out_of_range s0 5 (by decide)

/-- C7: with the null driver, generation returns a record whose compiled
handle equals the base material itself and leaves the source cache
untouched (no compiler invocation, the result does not depend on the
compiler entry point at all); with any other driver lacking GLSL support
or GPU programming services, generation fails with the structured
unsupported-feature error. -/
theorem generateShader_no_shader_support
    (env : ShaderEnv) (setters : List Setter) (src : SourceCache)
    (name : String) (cs : ShaderConstants) (mat : Int) :
    (env.driverType = DriverType.null →
      generateShader env setters src name cs mat =
        (Except.ok { name := name, input_constants := cs,
                     base_material := mat, material := mat }, src)) ∧
    (env.driverType ≠ DriverType.null →
      (env.queryGLSL = false ∨ env.hasGPU = false) →
      generateShader env setters src name cs mat =
        (Except.error (ShaderError.unsupported
          "GLSL is not supported by the driver"), src)) := by
  constructor
  · intro h
    unfold generateShader
    rw [if_pos h]
  · intro h1 h2
    unfold generateShader
    rw [if_neg h1, if_pos h2]

theorem generateShader_no_shader_support_witness :
    generateShader env0 [] [] "water" [] 0 =
      (Except.ok { name := "water", input_constants := [],
                   base_material := 0, material := 0 }, []) ∧
    generateShader envNoGLSL [] [] "water" [] 0 =
      (Except.error (ShaderError.unsupported
        "GLSL is not supported by the driver"), []) :=
  ⟨(generateShader_no_shader_support env0 [] [] "water" [] 0).1 rfl,
   (generateShader_no_shader_support envNoGLSL [] [] "water" [] 0).2
     (by decide) (Or.inl rfl)⟩

/-- C8: when two registered generation-time constant setters both define
the same key, the merged macro set emitted by generation carries the
later-registered setter's value: setters run in registration order and a
later write overwrites the earlier binding (last-write-wins).  This holds
for any earlier setters, any caller constants and any base material. -/
theorem mergedConstants_last_setter_wins
    (env : ShaderEnv) (pre : List Setter) (name : String)
    (cs : ShaderConstants) (mat : Int) (k : String) (va vb : ConstantValue) :
    constantsLookup
      (mergedConstants env
        (pre ++ [fun _ c => constSet c k va, fun _ c => constSet c k vb])
        name cs mat) k = some vb := by
  unfold mergedConstants
  simp only [List.foldl_append, List.foldl_cons, List.foldl_nil]
  exact constantsLookup_constSet_self _ k vb

/-- C10: in getShaderIdDirect the cache scan precedes the thread-identity
check: a call from a non-designated thread whose triple matches an
existing record returns that record's id with no error message, while a
cache miss from a non-designated thread is rejected with id 0 and the
error message, leaving the state unchanged. -/
theorem getShaderIdDirect_scan_precedes_thread_check
    (env : ShaderEnv) (tid : Nat) (s : ShaderSource) (name : String)
    (cs : ShaderConstants) (mat : Int)
    (hname : name ≠ "") (hthread : tid ≠ s.m_main_thread) :
    (∀ i, scanFind s.m_shaderinfo_cache name cs mat = some i →
      getShaderIdDirect env tid s name cs mat = (Except.ok i, s, [])) ∧
    (scanFind s.m_shaderinfo_cache name cs mat = none →
      getShaderIdDirect env tid s name cs mat =
        (Except.ok 0, s,
         ["ShaderSource::getShaderIdDirect() called not from main thread"])) :=
  ⟨fun _ hi => getShaderIdDirect_hit hname hi,
   fun hn => getShaderIdDirect_miss_other hname hn hthread⟩

theorem getShaderIdDirect_scan_precedes_thread_check_witness :
    getShaderIdDirect env0 1
        ((getShaderIdDirect env0 0 s0 "a" [("A", ConstantValue.ival 1)] 0).2.1)
        "a" [("A", ConstantValue.ival 1)] 0
      = (Except.ok 1,
         (getShaderIdDirect env0 0 s0 "a" [("A", ConstantValue.ival 1)] 0).2.1,
         []) ∧
    getShaderIdDirect env0 1 s0 "b" [] 0 =
      (Except.ok 0, s0,
       ["ShaderSource::getShaderIdDirect() called not from main thread"]) :=
  ⟨(getShaderIdDirect_scan_precedes_thread_check env0 1
      ((getShaderIdDirect env0 0 s0 "a" [("A", ConstantValue.ival 1)] 0).2.1)
      "a" [("A", ConstantValue.ival 1)] 0 (by decide) (by decide)).1 1 (by decide),
   (getShaderIdDirect_scan_precedes_thread_check env0 1 s0 "b" [] 0
      (by decide) (by decide)).2 (by decide)⟩

/-- C1: two successive requestId calls from the designated thread with the
same non-empty name and base material return the same id when the second
call's constant set is value-equal (same keys, same tagged values) to the
first's; the second call is a pure cache hit: it performs no generation,
emits no error, and leaves the whole state (in particular the table
length) unchanged. -/
theorem requestId_idempotent_memoization
    (env : ShaderEnv) (tid : Nat) (s : ShaderSource) (name : String)
    (cs1 cs2 : ShaderConstants) (mat : Int) (id : Nat)
    (hname : name ≠ "")
    (hthread : tid = s.m_main_thread)
    (heq : constantsEq cs1 cs2)
    (h1 : (getShaderIdDirect env tid s name cs1 mat).1 = Except.ok id) :
    getShaderIdDirect env tid
        ((getShaderIdDirect env tid s name cs1 mat).2.1) name cs2 mat
      = (Except.ok id, (getShaderIdDirect env tid s name cs1 mat).2.1, []) := by
  rcases getShaderIdDirect_ok_inv hname hthread h1 with
    ⟨hscan, hstate⟩ | ⟨hscan, hid, info, hgen, hcache⟩
  · rw [hstate]
    have hscan2 : scanFind s.m_shaderinfo_cache name cs2 mat = some id := by
      rw [← scanFind_congr heq]
      exact hscan
    exact getShaderIdDirect_hit hname hscan2
  · have hfields := generateShader_ok_fields hgen
    have hm2 : shaderMatches info name cs2 mat := by
      refine ⟨hfields.1, hfields.2.2, ?_⟩
      rw [hfields.2.1]
      exact heq
    have hnone2 : scanFind s.m_shaderinfo_cache name cs2 mat = none := by
      rw [← scanFind_congr heq]
      exact hscan
    have hscan2 : scanFind
        ((getShaderIdDirect env tid s name cs1 mat).2.1).m_shaderinfo_cache
        name cs2 mat = some id := by
      rw [hcache, scanFind_append_of_none info hnone2, if_pos hm2, hid]
    exact getShaderIdDirect_hit hname hscan2

theorem requestId_idempotent_memoization_witness :
    getShaderIdDirect env0 0
        ((getShaderIdDirect env0 0 s0 "nodes"
          [("A", ConstantValue.ival 1), ("B", ConstantValue.ival 2)] 0).2.1)
        "nodes" [("B", ConstantValue.ival 2), ("A", ConstantValue.ival 1)] 0
      = (Except.ok 1,
         (getShaderIdDirect env0 0 s0 "nodes"
           [("A", ConstantValue.ival 1), ("B", ConstantValue.ival 2)] 0).2.1,
         []) :=
  requestId_idempotent_memoization env0 0 s0 "nodes"
    [("A", ConstantValue.ival 1), ("B", ConstantValue.ival 2)]
    [("B", ConstantValue.ival 2), ("A", ConstantValue.ival 1)] 0 1
    (by decide) rfl (by decide) rfl

/-- C2 counterexample: the claim as stated fails for the empty name.  Two
requestId calls from the designated thread with the same (empty) name and
base material, whose constant sets differ only in the value of the one
constant "A", both return id 0 — the ids are not distinct, because an
empty name short-circuits to the sentinel id before the cache key is ever
consulted. -/
theorem requestId_empty_name_equal_ids :
    (getShaderIdDirect env0 0 s0 "" [("A", ConstantValue.ival 0)] 0).1
      = Except.ok 0 ∧
    (getShaderIdDirect env0 0
        ((getShaderIdDirect env0 0 s0 "" [("A", ConstantValue.ival 0)] 0).2.1)
        "" [("A", ConstantValue.ival 1)] 0).1
      = Except.ok 0 ∧
    ConstantValue.ival 0 ≠ ConstantValue.ival 1 :=
  ⟨rfl, rfl, by decide⟩

/-- C2 (amended): for two successive requestId calls from the designated
thread with the same non-empty name and base material, whose constant
sets are not value-equal (in particular when they differ only in the
value of one constant), and which both succeed in returning an id, the
two returned ids are distinct: the cache key is the full
(name, constants, base material) triple. -/
theorem requestId_distinct_ids_on_differing_constants
    (env : ShaderEnv) (tid : Nat) (s : ShaderSource) (name : String)
    (cs1 cs2 : ShaderConstants) (mat : Int) (id1 id2 : Nat)
    (hname : name ≠ "")
    (hthread : tid = s.m_main_thread)
    (hne : ¬ constantsEq cs1 cs2)
    (h1 : (getShaderIdDirect env tid s name cs1 mat).1 = Except.ok id1)
    (h2 : (getShaderIdDirect env tid
      ((getShaderIdDirect env tid s name cs1 mat).2.1) name cs2 mat).1
        = Except.ok id2) :
    id1 ≠ id2 := by
  intro hEq
  subst hEq
  rcases getShaderIdDirect_ok_inv hname hthread h1 with
    ⟨hscan1, hstate⟩ | ⟨hscan1, hid1, info, hgen, hcache⟩
  · rw [hstate] at h2
    rcases getShaderIdDirect_ok_inv hname hthread h2 with
      ⟨hscan2, -⟩ | ⟨-, hid2, -⟩
    · obtain ⟨ia, hga, hma⟩ := scanFind_some hscan1
      obtain ⟨ib, hgb, hmb⟩ := scanFind_some hscan2
      rw [hga] at hgb
      cases hgb
      exact hne (constantsEq_trans (constantsEq_symm hma.2.2) hmb.2.2)
    · exact absurd (hid2 ▸ scanFind_some_lt hscan1) (Nat.lt_irrefl _)
  · have hthread2 : tid =
        ((getShaderIdDirect env tid s name cs1 mat).2.1).m_main_thread := by
      rw [getShaderIdDirect_preserves_main]
      exact hthread
    rcases getShaderIdDirect_ok_inv hname hthread2 h2 with
      ⟨hscan2, -⟩ | ⟨-, hid2, -⟩
    · obtain ⟨info2, hg2, hmm⟩ := scanFind_some hscan2
      rw [hcache, hid1] at hg2
      rw [List.get?_eq_getElem?, List.getElem?_concat_length] at hg2
      cases hg2
      apply hne
      have h3 := hmm.2.2
      have hf := generateShader_ok_fields hgen
      rw [hf.2.1] at h3
      exact h3
    · rw [hcache, List.length_append, hid1] at hid2
      exact absurd hid2 (Nat.ne_of_lt (Nat.lt_succ_self _))

theorem requestId_distinct_ids_on_differing_constants_witness :
    (getShaderIdDirect env0 0 s0 "a" [("A", ConstantValue.ival 0)] 0).1
      = Except.ok 1 ∧
    (getShaderIdDirect env0 0
        ((getShaderIdDirect env0 0 s0 "a" [("A", ConstantValue.ival 0)] 0).2.1)
        "a" [("A", ConstantValue.ival 1)] 0).1
      = Except.ok 2 ∧
    (1 : Nat) ≠ 2 :=
  ⟨rfl, rfl,
   requestId_distinct_ids_on_differing_constants env0 0 s0 "a"
     [("A", ConstantValue.ival 0)] [("A", ConstantValue.ival 1)] 0 1 2
     (by decide) rfl (by decide) rfl rfl⟩

/-- The logical identity of a record: the cache-key fields (name, input
constants, base material), everything except the compiled handle. -/
def shaderKey (i : ShaderInfo) : String × ShaderConstants × Int :=
  (i.name, i.input_constants, i.base_material)

theorem rebuildLoop_map_key (env : ShaderEnv) (setters : List Setter) :
    ∀ (l : List ShaderInfo) (src : SourceCache),
      List.map shaderKey (rebuildLoop env setters src l).2.1
        = List.map shaderKey l := by
  intro l
  induction l with
  | nil => intro src; rfl
  | cons i rest ih =>
    intro src
    unfold rebuildLoop
    by_cases hn : i.name = ""
    · rw [if_pos hn]
      simp only [List.map_cons]
      rw [ih]
    · rw [if_neg hn]
      simp only
      cases hg : (generateShader env setters src i.name i.input_constants
          i.base_material).1 with
      | error e => simp only [List.map_cons]
      | ok info =>
        simp only [List.map_cons]
        have hf := generateShader_ok_fields hg
        rw [ih]
        unfold shaderKey
        rw [hf.1, hf.2.1, hf.2.2]

theorem rebuildShaders_map_key (env : ShaderEnv) (s : ShaderSource) :
    List.map shaderKey ((rebuildShaders env s).2).m_shaderinfo_cache
      = List.map shaderKey s.m_shaderinfo_cache := by
  show List.map shaderKey
      (rebuildLoop env s.m_constant_setters s.m_sourcecache
        (s.m_shaderinfo_cache.map
          (fun i => if i.name = "" then i else { i with material := EMT_SOLID }))).2.1
    = List.map shaderKey s.m_shaderinfo_cache
  rw [rebuildLoop_map_key, List.map_map]
  refine List.map_congr_left ?_
  intro i _
  by_cases hn : i.name = ""
  · simp [Function.comp, hn]
  · simp [Function.comp, hn, shaderKey]

/-- C4: rebuildAll preserves every id: the table length is unchanged, and
every id valid before the rebuild still resolves via lookup to a record
with the same name, the same input constant set and the same base
material as before; only the compiled handle may change, and no id is
renumbered or reused.  This holds whether the rebuild pass completes or
stops at a generation failure. -/
theorem rebuildShaders_preserves_ids
    (env : ShaderEnv) (s : ShaderSource) :
    ((rebuildShaders env s).2).m_shaderinfo_cache.length
        = s.m_shaderinfo_cache.length ∧
    ∀ id, id < s.m_shaderinfo_cache.length →
      (getShaderInfo (rebuildShaders env s).2 id).name
          = (getShaderInfo s id).name ∧
      (getShaderInfo (rebuildShaders env s).2 id).input_constants
          = (getShaderInfo s id).input_constants ∧
      (getShaderInfo (rebuildShaders env s).2 id).base_material
          = (getShaderInfo s id).base_material := by
  have hkey := rebuildShaders_map_key env s
  have hlen : ((rebuildShaders env s).2).m_shaderinfo_cache.length
      = s.m_shaderinfo_cache.length := by
    have := congrArg List.length hkey
    simpa using this
  refine ⟨hlen, ?_⟩
  intro id hid
  have hid' : id < ((rebuildShaders env s).2).m_shaderinfo_cache.length := by
    rw [hlen]; exact hid
  have hsome : (List.map shaderKey
        (((rebuildShaders env s).2).m_shaderinfo_cache))[id]?
      = (List.map shaderKey s.m_shaderinfo_cache)[id]? :=
    congrArg (fun l => l[id]?) hkey
  simp only [List.getElem?_map] at hsome
  rw [List.getElem?_eq_getElem hid, List.getElem?_eq_getElem hid'] at hsome
  simp only [Option.map_some'] at hsome
  have hkeyeq : shaderKey (((rebuildShaders env s).2).m_shaderinfo_cache[id])
      = shaderKey (s.m_shaderinfo_cache[id]) := by
    injection hsome
  have hg1 : getShaderInfo (rebuildShaders env s).2 id
      = ((rebuildShaders env s).2).m_shaderinfo_cache[id] := by
    unfold getShaderInfo
    exact List.getD_eq_getElem _ _ hid'
  have hg2 : getShaderInfo s id = s.m_shaderinfo_cache[id] := by
    unfold getShaderInfo
    exact List.getD_eq_getElem _ _ hid
  rw [hg1, hg2]
  unfold shaderKey at hkeyeq
  exact ⟨congrArg Prod.fst hkeyeq,
         congrArg (fun p => p.2.1) hkeyeq,
         congrArg (fun p => p.2.2) hkeyeq⟩

theorem rebuildShaders_preserves_ids_witness :
    (rebuildShaders env0 ((getShaderIdDirect env0 0 s0 "a" [("A", ConstantValue.ival 1)] 0).2.1)).2.m_shaderinfo_cache.length = ((getShaderIdDirect env0 0 s0 "a" [("A", ConstantValue.ival 1)] 0).2.1).m_shaderinfo_cache.length ∧
    (getShaderInfo (rebuildShaders env0 ((getShaderIdDirect env0 0 s0 "a" [("A", ConstantValue.ival 1)] 0).2.1)).2 1).name = (getShaderInfo ((getShaderIdDirect env0 0 s0 "a" [("A", ConstantValue.ival 1)] 0).2.1) 1).name :=
  ⟨(rebuildShaders_preserves_ids env0
      ((getShaderIdDirect env0 0 s0 "a" [("A", ConstantValue.ival 1)] 0).2.1)).1,
   ((rebuildShaders_preserves_ids env0
      ((getShaderIdDirect env0 0 s0 "a" [("A", ConstantValue.ival 1)] 0).2.1)).2 1
      (by decide)).1⟩

theorem getShaderIdDirect_cache_shape (env : ShaderEnv) (tid : Nat)
    (s : ShaderSource) (name : String) (cs : ShaderConstants) (mat : Int) :
    ((getShaderIdDirect env tid s name cs mat).2.1).m_shaderinfo_cache
        = s.m_shaderinfo_cache ∨
    ∃ info, ((getShaderIdDirect env tid s name cs mat).2.1).m_shaderinfo_cache
        = s.m_shaderinfo_cache ++ [info] := by
  by_cases hname : name = ""
  · subst hname
    rw [getShaderIdDirect_empty]
    left
    rfl
  · cases hscan : scanFind s.m_shaderinfo_cache name cs mat with
    | some i =>
      rw [getShaderIdDirect_hit hname hscan]
      left
      rfl
    | none =>
      by_cases hthread : tid = s.m_main_thread
      · cases hgen : (generateShader env s.m_constant_setters s.m_sourcecache
            name cs mat).1 with
        | error e =>
          rw [getShaderIdDirect_gen_err hname hscan hthread hgen]
          left
          rfl
        | ok info =>
          rw [getShaderIdDirect_gen_ok hname hscan hthread hgen]
          right
          exact ⟨info, rfl⟩
      · rw [getShaderIdDirect_miss_other hname hscan hthread]
        left
        rfl

theorem reachable_head_sentinel {env : ShaderEnv} {s : ShaderSource}
    (h : Reachable env s) :
    s.m_shaderinfo_cache.head? = some emptyShaderInfo := by
  induction h with
  | init tid => rfl
  | request tid name cs mat hr ih =>
    rename_i t
    rcases getShaderIdDirect_cache_shape env tid t name cs mat with heq | ⟨info, heq⟩
    · rw [heq]; exact ih
    · rw [heq]
      cases hc : t.m_shaderinfo_cache with
      | nil => rw [hc] at ih; cases ih
      | cons a rest =>
        rw [hc] at ih
        simpa using ih
  | insertSrc n f program hr ih => exact ih
  | addSetter st hr ih => exact ih
  | rebuild hr ih =>
    rename_i t
    cases hc : t.m_shaderinfo_cache with
    | nil => rw [hc] at ih; cases ih
    | cons a rest =>
      rw [hc] at ih
      have ha : a = emptyShaderInfo := by simpa using ih
      subst ha
      show (rebuildLoop env t.m_constant_setters t.m_sourcecache
        (t.m_shaderinfo_cache.map
          (fun i => if i.name = "" then i
                    else { i with material := EMT_SOLID }))).2.1.head?
        = some emptyShaderInfo
      rw [hc]
      simp only [List.map_cons]
      rw [if_pos (show emptyShaderInfo.name = "" from rfl)]
      unfold rebuildLoop
      rw [if_pos (show emptyShaderInfo.name = "" from rfl)]
      rfl

/-- C6: in every reachable registry state — freshly constructed and after
any sequence of request, override-insertion, setter-registration and
rebuild operations — the record at index 0 is the sentinel: lookup(0)
returns it and its name is empty; the cache scan of requestId never
matches index 0 for a non-empty requested name; and an empty-name request
short-circuits to id 0 leaving the state untouched. -/
theorem reachable_sentinel_invariant (env : ShaderEnv) (s : ShaderSource)
    (h : Reachable env s) :
    s.m_shaderinfo_cache.head? = some (getShaderInfo s 0) ∧
    (getShaderInfo s 0).name = "" ∧
    (∀ name cs mat, name ≠ "" →
      scanFind s.m_shaderinfo_cache name cs mat ≠ some 0) ∧
    (∀ tid cs mat,
      getShaderIdDirect env tid s "" cs mat = (Except.ok 0, s, [])) := by
  have hhead := reachable_head_sentinel h
  cases hc : s.m_shaderinfo_cache with
  | nil => rw [hc] at hhead; cases hhead
  | cons a rest =>
    rw [hc] at hhead
    have ha : a = emptyShaderInfo := by simpa using hhead
    subst ha
    have hg0 : getShaderInfo s 0 = emptyShaderInfo := by
      unfold getShaderInfo
      rw [hc]
      rfl
    refine ⟨?_, ?_, ?_, ?_⟩
    · rw [hg0]
      rfl
    · rw [hg0]
      rfl
    · intro name cs mat hname hsome
      obtain ⟨info, hget, hm⟩ := scanFind_some hsome
      have hinfo : info = emptyShaderInfo := by
        simpa using hget.symm
      subst hinfo
      exact hname hm.1.symm
    · intro tid cs mat
      exact getShaderIdDirect_empty env tid s cs mat

theorem reachable_sentinel_invariant_witness :
    s0.m_shaderinfo_cache.head? = some (getShaderInfo s0 0) ∧
    (getShaderInfo s0 0).name = "" ∧
    (∀ name cs mat, name ≠ "" →
      scanFind s0.m_shaderinfo_cache name cs mat ≠ some 0) ∧
    (∀ tid cs mat,
      getShaderIdDirect env0 tid s0 "" cs mat = (Except.ok 0, s0, [])) :=
  reachable_sentinel_invariant env0 s0 (Reachable.init 0)

theorem logName_eq_of_short : ∀ (cs : ShaderConstants) (name : String),
    (name ++ concatPairs cs.dropLast).length ≤ 60 →
    logName name cs = name ++ concatPairs cs := by
  intro cs
  induction cs with
  | nil =>
    intro name _
    show name = name ++ concatPairs []
    rw [show concatPairs [] = "" from rfl, String.append_empty]
  | cons p rest ih =>
    intro name h
    have hname : ¬ name.length > 60 := by
      have h1 : (name ++ concatPairs ((p :: rest).dropLast)).length
          = name.length + (concatPairs ((p :: rest).dropLast)).length :=
        String.length_append _ _
      rw [h1] at h
      exact Nat.not_lt.mpr (le_trans (Nat.le_add_right _ _) h)
    unfold logName
    rw [if_neg hname]
    cases rest with
    | nil =>
      show name ++ pairStr p = name ++ concatPairs [p]
      rw [show concatPairs [p] = pairStr p ++ "" from rfl, String.append_empty]
    | cons q rest2 =>
      have h2 : ((name ++ pairStr p) ++ concatPairs ((q :: rest2).dropLast)).length ≤ 60 := by
        rw [String.append_assoc]
        exact h
      rw [ih (name ++ pairStr p) h2, String.append_assoc]
      rfl

theorem logName_eq_of_over : ∀ (cs : ShaderConstants) (name : String) (j : Nat),
    j < cs.length →
    60 < (name ++ concatPairs (cs.take j)).length →
    (∀ i, i < j → (name ++ concatPairs (cs.take i)).length ≤ 60) →
    logName name cs = name ++ concatPairs (cs.take j) ++ "..." := by
  intro cs
  induction cs with
  | nil =>
    intro name j hj
    exact absurd hj (by simp)
  | cons p rest ih =>
    intro name j hj hgt hmin
    cases j with
    | zero =>
      have e : (name ++ concatPairs ((p :: rest).take 0)).length = name.length := by
        rw [String.length_append]
        rfl
      have hname : name.length > 60 := e ▸ hgt
      unfold logName
      rw [if_pos hname,
          show concatPairs ((p :: rest).take 0) = "" from rfl, String.append_empty]
    | succ i =>
      have hname : ¬ name.length > 60 := by
        have h0 := hmin 0 (Nat.succ_pos i)
        have e : (name ++ concatPairs ((p :: rest).take 0)).length = name.length := by
          rw [String.length_append]
          rfl
        exact Nat.not_lt.mpr (e ▸ h0)
      have hlt : i < rest.length := by
        rw [List.length_cons] at hj
        exact Nat.lt_of_succ_lt_succ hj
      have hgt2 : 60 < ((name ++ pairStr p) ++ concatPairs (rest.take i)).length := by
        rw [String.append_assoc]
        exact hgt
      have hmin2 : ∀ i', i' < i →
          ((name ++ pairStr p) ++ concatPairs (rest.take i')).length ≤ 60 := by
        intro i' hi'
        rw [String.append_assoc]
        exact hmin (i' + 1) (Nat.succ_lt_succ hi')
      unfold logName
      rw [if_neg hname, ih (name ++ pairStr p) i hlt hgt2 hmin2]
      exact congrArg (fun x => x ++ "...")
        (String.append_assoc name (pairStr p) (concatPairs (rest.take i)))

/-- A 61-character shader name. -/
def nameLong : String :=
  "aaaaaaaaaaaaaaaaaaaaaaaaaaaaaaaaaaaaaaaaaaaaaaaaaaaaaaaaaaaaa"

/-- A 61-character constant key. -/
def keyLong : String :=
  "bbbbbbbbbbbbbbbbbbbbbbbbbbbbbbbbbbbbbbbbbbbbbbbbbbbbbbbbbbbbb"

/-- C9 counterexample: the truncation budget is not 60 characters of
constants.  A 61-character shader name with a single short constant is
truncated with zero characters of constants emitted, while a 1-character
name carries a 64-character constants portion untruncated: the 60
character budget applies to the accumulated identifier, name included. -/
theorem logName_constants_budget_counterexample :
    logName nameLong [("K", ConstantValue.ival 1)] = nameLong ++ "..." ∧
    logName "x" [(keyLong, ConstantValue.ival 1)] = "x " ++ keyLong ++ "=1" := by
  constructor
  · rfl
  · rfl

/-- C9 (amended): the diagnostic identifier built during generation is
the shader name followed by the " key=value" fragments of the input
constants in order; before each fragment is appended, if the accumulated
identifier — the name included — already exceeds 60 characters, an
ellipsis is appended and the remaining fragments are dropped.  The
identifier is not part of the cache key: a successfully generated record
stores exactly the raw (name, constants, base material) triple the scan
compares, and no identifier string. -/
theorem logName_identifier_characterization :
    (∀ name (cs : ShaderConstants),
      (name ++ concatPairs cs.dropLast).length ≤ 60 →
      logName name cs = name ++ concatPairs cs) ∧
    (∀ name (cs : ShaderConstants) (j : Nat),
      j < cs.length →
      60 < (name ++ concatPairs (cs.take j)).length →
      (∀ i, i < j → (name ++ concatPairs (cs.take i)).length ≤ 60) →
      logName name cs = name ++ concatPairs (cs.take j) ++ "...") ∧
    (∀ env setters src n cs mat info,
      (generateShader env setters src n cs mat).1 = Except.ok info →
      info.name = n ∧ info.input_constants = cs ∧ info.base_material = mat) :=
  ⟨fun name cs h => logName_eq_of_short cs name h,
   fun name cs j hj hgt hmin => logName_eq_of_over cs name j hj hgt hmin,
   fun _ _ _ _ _ _ _ h => generateShader_ok_fields h⟩

theorem logName_identifier_characterization_witness :
    logName "water" [("K", ConstantValue.ival 7)] = "water K=7" ∧
    logName nameLong [("K", ConstantValue.ival 7)] = nameLong ++ "..." := by
  constructor
  · have h := (logName_identifier_characterization).1 "water"
      [("K", ConstantValue.ival 7)] (by decide)
    rw [h]
    rfl
  · have h := (logName_identifier_characterization).2.1 nameLong
      [("K", ConstantValue.ival 7)] 0 (by decide) (by decide)
      (fun i hi => absurd hi (Nat.not_lt_zero i))
    rw [h]
    rfl
